import Mathlib

/-!
Shallow embedding of the user identity and credential-lifecycle subsystem of
the AI Data Assistant repository.

Sources embedded:
* `models/user.py` — the `User` record and its helper methods
  (`generate_verification_token`, `is_verification_token_expired`,
  `mark_verified`, `update_last_login`) and the `PasswordResetToken` record.
* `services/user_service.py` — `UserService.create_user`,
  `authenticate_user`, `verify_email`, `get_user_by_verification_token`,
  `get_user_by_email`, `create_password_reset_token`, `reset_password`.
* `auth/login.py` — `authenticate_with_config`, `authenticate_with_database`.
* `auth/email_verification.py` — `verify_email_token`.

Modelling conventions:
* Timestamps are natural numbers (seconds); `datetime.utcnow()` becomes an
  explicit `now` parameter threaded into each operation that reads the clock.
* `uuid.uuid4()` and `bcrypt.gensalt()` are random sources external to the
  repository; each operation that draws from them takes the drawn value as an
  explicit parameter (`vtok`, `rtok`, `salt`).  Freshness/uniqueness of drawn
  values appears as a hypothesis where a property depends on it.
* The SQLAlchemy session is modelled as an explicit `DB` value; `commit` of a
  mutated ORM object is modelled by rewriting the row with the matching
  primary key (`saveUser`).  `query(...).filter(...).first()` is `List.find?`.
* The bcrypt library itself is not repository code; it is modelled by its
  documented contract: `hashpw` embeds the salt in its output and is, for a
  fixed salt, determined by and injective in the password; `checkpw`
  recomputes the digest from the stored salt and compares.
-/

namespace DataAssistant

/-- Model of the bcrypt library's opaque hash value: the salt is embedded in
the output (`"$2b$12$<salt><digest>"`), and the digest is the one-way function
of salt and password.  The digest is modelled extensionally by the pair of
inputs that determine it. -/
structure BcryptHash where
  salt : String
  digest : String
  deriving Repr, DecidableEq

/-- Model of `bcrypt.hashpw(password, salt)`: deterministic in (password,
salt), injective in the password for a fixed salt. -/
def bcrypt_hashpw (password : String) (salt : String) : BcryptHash :=
  ⟨salt, salt ++ "|" ++ password⟩

/-- Model of `bcrypt.checkpw(password, stored)`: recompute the digest from the
salt embedded in the stored hash and compare. -/
def bcrypt_checkpw (password : String) (stored : BcryptHash) : Bool :=
  stored.digest == stored.salt ++ "|" ++ password

/-- The string form in which the hash is stored in the `password_hash` column
(`.decode("utf-8")` of the bcrypt output, which always carries the
`"$2b$12$"` algorithm/cost prefix). -/
def BcryptHash.render (h : BcryptHash) : String :=
  "$2b$12$" ++ h.salt ++ h.digest

/-- Row of the `users` table (`models/user.py`, class `User`). -/
structure DUser where
  id : Nat
  username : String
  email : String
  password_hash : BcryptHash
  is_verified : Bool
  verification_token : Option String
  verification_expires : Option Nat
  created_at : Nat
  last_login : Option Nat
  is_active : Bool
  deriving Repr, DecidableEq

/-- Row of the `password_reset_tokens` table (`models/user.py`, class
`PasswordResetToken`). -/
structure ResetTokenRec where
  user_id : Nat
  token : String
  expires_at : Nat
  deriving Repr, DecidableEq

/-- The persistent store visible to the embedded operations: the `users` and
`password_reset_tokens` tables, plus the autoincrement counter for user ids. -/
structure DB where
  users : List DUser
  reset_tokens : List ResetTokenRec
  next_id : Nat
  deriving Repr, DecidableEq

/-- `timedelta(hours=1)` in seconds. -/
def oneHour : Nat := 3600

/-- `timedelta(hours=24)` in seconds. -/
def oneDay : Nat := 86400

/-- `User.is_verification_token_expired`: `None` expiry counts as expired
(`if not self.verification_expires: return True`), otherwise compare with
`datetime.utcnow()`. -/
def is_verification_token_expired (u : DUser) (now : Nat) : Bool :=
  match u.verification_expires with
  | none => true
  | some e => now > e

/-- `User.mark_verified`: set verified, clear token and expiry. -/
def mark_verified (u : DUser) : DUser :=
  { u with is_verified := true, verification_token := none,
           verification_expires := none }

/-- `User.update_last_login`: `self.last_login = datetime.utcnow()`. -/
def update_last_login (u : DUser) (now : Nat) : DUser :=
  { u with last_login := some now }

/-- `PasswordResetToken.is_expired`. -/
def ResetTokenRec.is_expired (r : ResetTokenRec) (now : Nat) : Bool :=
  now > r.expires_at

/-- The `username == identifier OR email == identifier` lookup shared by both
authentication entry points. -/
def findByIdent (db : DB) (ident : String) : Option DUser :=
  db.users.find? (fun u => u.username == ident || u.email == ident)

/-- `UserService.get_user_by_verification_token`. -/
def get_user_by_verification_token (db : DB) (token : String) : Option DUser :=
  db.users.find? (fun u => u.verification_token == some token)

/-- `UserService.get_user_by_email`. -/
def get_user_by_email (db : DB) (email : String) : Option DUser :=
  db.users.find? (fun u => u.email == email)

/-- `UserService.get_user_by_username`. -/
def get_user_by_username (db : DB) (username : String) : Option DUser :=
  db.users.find? (fun u => u.username == username)

/-- Commit of a mutated ORM `User` object: rewrite the row with the same
primary key. -/
def saveUser (users : List DUser) (u : DUser) : List DUser :=
  users.map (fun v => if v.id = u.id then u else v)

/-- Result shape of `UserService.create_user` and
`UserService.authenticate_user`: `Tuple of (success, message, user_object)`,
plus the store after the call. -/
structure AuthResult where
  success : Bool
  message : String
  user : Option DUser
  db : DB
  deriving Repr, DecidableEq

/-- `UserService.create_user`.  The drawn verification token (`uuid4`) and
bcrypt salt (`gensalt`) are explicit parameters. -/
def create_user (db : DB) (now : Nat) (username email password : String)
    (vtok salt : String) : AuthResult :=
  if (db.users.find? (fun u => u.username == username)).isSome then
    ⟨false, "Username already exists", none, db⟩
  else if (db.users.find? (fun u => u.email == email)).isSome then
    ⟨false, "Email already registered", none, db⟩
  else
    let user : DUser :=
      { id := db.next_id, username := username, email := email,
        password_hash := bcrypt_hashpw password salt,
        is_verified := false,
        verification_token := some vtok,
        verification_expires := some (now + oneDay),
        created_at := now, last_login := none, is_active := true }
    ⟨true, "User created successfully", some user,
      { db with users := db.users ++ [user], next_id := db.next_id + 1 }⟩

/-- `UserService.authenticate_user`: look up by username or email, check the
password with bcrypt, update `last_login` to now and commit.  (The service
layer performs no `is_verified` or `is_active` check.) -/
def authenticate_user (db : DB) (now : Nat) (username password : String) :
    AuthResult :=
  match findByIdent db username with
  | none => ⟨false, "Invalid username or password", none, db⟩
  | some user =>
    if !bcrypt_checkpw password user.password_hash then
      ⟨false, "Invalid username or password", none, db⟩
    else
      let user' := update_last_login user now
      ⟨true, "Authentication successful", some user',
        { db with users := saveUser db.users user' }⟩

/-- Result shape of `UserService.verify_email` and
`UserService.reset_password`: `Tuple of (success, message)` plus the store. -/
structure OpResult where
  success : Bool
  message : String
  db : DB
  deriving Repr, DecidableEq

/-- `UserService.verify_email`: look up the user by verification token; check
expiry, then the already-verified flag, in that order; on success
`mark_verified` and commit. -/
def verify_email (db : DB) (now : Nat) (token : String) : OpResult :=
  match db.users.find? (fun u => u.verification_token == some token) with
  | none => ⟨false, "Invalid verification token", db⟩
  | some user =>
    if is_verification_token_expired user now then
      ⟨false, "Verification token has expired", db⟩
    else if user.is_verified then
      ⟨false, "Email already verified", db⟩
    else
      ⟨true, "Email verified successfully",
        { db with users := saveUser db.users (mark_verified user) }⟩

/-- Result shape of `UserService.create_password_reset_token`:
`Tuple of (success, message, reset_token)` plus the store. -/
structure ResetReqResult where
  success : Bool
  message : String
  token : Option String
  db : DB
  deriving Repr, DecidableEq

/-- `UserService.create_password_reset_token`: look up the user by email,
reject unverified accounts, then insert a fresh reset-token row with a
1-hour expiry.  (No existing token row for the user is deleted or
invalidated.)  The drawn `uuid4` value is the `rtok` parameter. -/
def create_password_reset_token (db : DB) (now : Nat) (email : String)
    (rtok : String) : ResetReqResult :=
  match get_user_by_email db email with
  | none => ⟨false, "No account found with this email", none, db⟩
  | some user =>
    if !user.is_verified then
      ⟨false, "Please verify your email first", none, db⟩
    else
      ⟨true, "Password reset token created", some rtok,
        { db with reset_tokens :=
            db.reset_tokens ++ [⟨user.id, rtok, now + oneHour⟩] }⟩

/-- `UserService.reset_password`: look up the reset-token row, check expiry,
look up the owning user, overwrite `password_hash` with a fresh bcrypt hash
of the new password, delete the token row, commit.  The drawn salt is the
`salt` parameter. -/
def reset_password (db : DB) (now : Nat) (token new_password : String)
    (salt : String) : OpResult :=
  match db.reset_tokens.find? (fun r => r.token == token) with
  | none => ⟨false, "Invalid reset token", db⟩
  | some r =>
    if r.is_expired now then
      ⟨false, "Reset token has expired", db⟩
    else
      match db.users.find? (fun u => u.id == r.user_id) with
      | none => ⟨false, "User not found", db⟩
      | some user =>
        let user' := { user with password_hash := bcrypt_hashpw new_password salt }
        ⟨true, "Password reset successfully",
          { db with users := saveUser db.users user',
                    reset_tokens :=
                      db.reset_tokens.eraseP (fun r₂ => r₂.token == token) }⟩

/-- The third component returned by `authenticate_with_database`
(`Optional[dict]` in the source): `None`, an error tag carrying the user, or
the authenticated user. -/
inductive AuthExtra where
  | noInfo
  | emailNotVerifiedInfo (user : DUser)
  | accountDeactivatedInfo (user : DUser)
  | userInfo (user : DUser)
  deriving Repr, DecidableEq

/-- Result shape of `auth/login.py::authenticate_with_database`:
`Tuple of (success, name, extra)` plus the store. -/
structure DbAuthResult where
  success : Bool
  name : Option String
  extra : AuthExtra
  db : DB
  deriving Repr, DecidableEq

/-- `auth/login.py::authenticate_with_database`: look up by username or
email; check the password; then the verified flag; then the active flag; on
success set `last_login = user.last_login or user.created_at` and commit.
(It reads no clock, so it takes no `now` parameter.) -/
def authenticate_with_database (db : DB) (username password : String) :
    DbAuthResult :=
  match findByIdent db username with
  | none => ⟨false, none, .noInfo, db⟩
  | some user =>
    if !bcrypt_checkpw password user.password_hash then
      ⟨false, none, .noInfo, db⟩
    else if !user.is_verified then
      ⟨false, none, .emailNotVerifiedInfo user, db⟩
    else if !user.is_active then
      ⟨false, none, .accountDeactivatedInfo user, db⟩
    else
      let user' := { user with last_login := some (user.last_login.getD user.created_at) }
      ⟨true, some user.username, .userInfo user',
        { db with users := saveUser db.users user' }⟩

/-- One entry of `config["credentials"]["usernames"]` in the TOML config
file: display name and the stored password value. -/
structure ConfigUser where
  name : String
  password : String
  deriving Repr, DecidableEq

/-- The `config["credentials"]["usernames"]` mapping. -/
structure Config where
  usernames : List (String × ConfigUser)
  deriving Repr, DecidableEq

/-- `auth/login.py::authenticate_with_config`: if the username is a key of
the config mapping and the stored `password` value equals the supplied
password (plain string equality), succeed with the display name. -/
def authenticate_with_config (username password : String) (config : Config) :
    Bool × Option String :=
  match config.usernames.find? (fun p => p.fst == username) with
  | none => (false, none)
  | some p =>
    if p.snd.password == password then (true, some p.snd.name)
    else (false, none)

/-- Result shape of `auth/email_verification.py::verify_email_token`:
`(success, message, username)` plus whether the welcome-email branch ran,
plus the store. -/
structure VerifyPageResult where
  success : Bool
  message : String
  username : String
  welcome_email_sent : Bool
  db : DB
  deriving Repr, DecidableEq

/-- `auth/email_verification.py::verify_email_token`: run
`UserService.verify_email`; on success, look the user up again by the same
token to send the welcome email and report the username, falling back to
`"User"` when the lookup finds nobody. -/
def verify_email_token (db : DB) (now : Nat) (token : String) :
    VerifyPageResult :=
  let r := verify_email db now token
  if r.success then
    match get_user_by_verification_token r.db token with
    | some user => ⟨true, r.message, user.username, true, r.db⟩
    | none => ⟨true, r.message, "User", false, r.db⟩
  else
    ⟨false, r.message, "", false, r.db⟩

/-! ### Helper lemmas -/

/-- Appending on the left is cancellative for strings. -/
theorem string_append_left_cancel (s x y : String) (h : s ++ x = s ++ y) :
    x = y := by
  have hd := congrArg String.data h
  simp only [String.data_append] at hd
  exact String.ext (List.append_cancel_left hd)

/-- The bcrypt model verifies exactly the password it was hashed from. -/
theorem checkpw_hashpw (p q s : String) :
    bcrypt_checkpw p (bcrypt_hashpw q s) = (q == p) := by
  simp only [bcrypt_checkpw, bcrypt_hashpw]
  by_cases h : q = p
  · subst h; simp
  · have hne : ¬(s ++ "|" ++ q = s ++ "|" ++ p) := fun hc =>
      h (string_append_left_cancel (s ++ "|") q p hc)
    simp [hne, h]

/-- The stored (rendered) bcrypt hash is strictly longer than the password,
hence never equal to it. -/
theorem render_hashpw_ne (p s : String) : (bcrypt_hashpw p s).render ≠ p := by
  intro h
  have hl := congrArg String.length h
  have h7 : ("$2b$12$" : String).length = 7 := rfl
  have h1 : ("|" : String).length = 1 := rfl
  simp only [BcryptHash.render, bcrypt_hashpw, String.length_append, h7, h1] at hl
  omega

/-- Appending `"x"` changes a string (the length grows by one). -/
theorem append_x_ne (p : String) : p ++ "x" ≠ p := by
  intro h
  have hl := congrArg String.length h
  have h1 : ("x" : String).length = 1 := rfl
  simp only [String.length_append, h1] at hl
  omega

/-- `find?` commutes with a map that does not change the predicate's value on
any element of the list. -/
theorem find?_map_of_pred_inv {α : Type} (f : α → α) (p : α → Bool) :
    ∀ l : List α, (∀ x ∈ l, p (f x) = p x) →
      (l.map f).find? p = (l.find? p).map f := by
  intro l
  induction l with
  | nil => intro _; rfl
  | cons a l ih =>
    intro h
    have ha : p (f a) = p a := h a (List.mem_cons_self a l)
    by_cases hpa : p a = true
    · simp [List.find?_cons, hpa, ha]
    · have hpa' : p a = false := by simpa using hpa
      simp only [List.map_cons, List.find?_cons, ha, hpa']
      exact ih fun x hx => h x (List.mem_cons_of_mem a hx)

/-- After `mark_verified` is committed for the (unique) holder of token `t`,
no user row matches `t` any more. -/
theorem find?_token_after_clear (db : DB) (t : String) (u : DUser)
    (huniq : ∀ v ∈ db.users, v.verification_token = some t → v.id = u.id) :
    (saveUser db.users (mark_verified u)).find?
      (fun v => v.verification_token == some t) = none := by
  rw [List.find?_eq_none]
  intro v hv
  simp only [saveUser, List.mem_map] at hv
  obtain ⟨w, hw, rfl⟩ := hv
  by_cases hid : w.id = (mark_verified u).id
  · simp [hid, mark_verified]
  · simp only [if_neg hid]
    intro hvt
    simp only [beq_iff_eq] at hvt
    exact hid (huniq w hw hvt)

/-! ### Concrete fixtures used in counterexamples and witnesses -/

/-- An unverified, active user holding a live verification token; the stored
hash is the bcrypt hash of `"pw"`. -/
def aliceU : DUser :=
  ⟨1, "alice", "alice@x.com", bcrypt_hashpw "pw" "s1", false, some "VT1",
    some 1000, 5, none, true⟩

/-- Store holding only `aliceU`. -/
def dbU : DB := ⟨[aliceU], [], 2⟩

/-- A verified, active user with the bcrypt hash of `"Str0ng!Pass"`. -/
def aliceV : DUser :=
  ⟨1, "alice", "alice@x.com", bcrypt_hashpw "Str0ng!Pass" "s1", true, none,
    none, 5, none, true⟩

/-- Store holding only `aliceV`. -/
def dbV : DB := ⟨[aliceV], [], 2⟩

/-- Store holding `aliceV` together with a live reset token `"T1"`. -/
def dbVreset : DB := ⟨[aliceV], [⟨1, "T1", 200⟩], 2⟩

/-- An unverified user with a registered email address. -/
def bobU : DUser :=
  ⟨1, "bob", "bob@x.com", bcrypt_hashpw "pw" "s1", false, some "VTB",
    some 1000, 5, none, true⟩

/-- Store holding only `bobU`. -/
def dbBob : DB := ⟨[bobU], [], 2⟩

/-- A user who is already verified while still holding a verification token
whose expiry (10) is in the past relative to `now = 100`. -/
def carol : DUser :=
  ⟨1, "carol", "carol@x.com", bcrypt_hashpw "pw" "s1", true, some "VT5",
    some 10, 5, none, true⟩

/-- Store holding only `carol`. -/
def dbCarol : DB := ⟨[carol], [], 2⟩

/-- A verified but deactivated (`is_active = false`) user. -/
def dave : DUser :=
  ⟨1, "dave", "dave@x.com", bcrypt_hashpw "pw" "s1", true, none, none, 5,
    none, false⟩

/-- Store holding only `dave`. -/
def dbDave : DB := ⟨[dave], [], 2⟩

/-- A verified, active user whose `last_login` is already `some 3` and whose
`created_at` is 5. -/
def erin : DUser :=
  ⟨1, "erin", "erin@x.com", bcrypt_hashpw "pw" "s1", true, none, none, 5,
    some 3, true⟩

/-- Store holding only `erin`. -/
def dbErin : DB := ⟨[erin], [], 2⟩

/-- A config file storing the literal password value `"secret"` for user
`"admin"`. -/
def cfgAdmin : Config := ⟨[("admin", ⟨"Admin", "secret"⟩)]⟩

/-! ### Reachable-state invariant

The C4/C10 hypotheses include `u.is_verified = false` for the holder of a
verification token.  The following shows this is not an extra assumption but
an invariant of the embedded operations: in every store reachable from an
empty store, a user still holding a verification token is unverified
(`create_user` issues tokens only to fresh unverified users, and the only
operation that sets `is_verified` — `verify_email` via `mark_verified` —
clears the token in the same step). -/

/-- One call into the credential subsystem, with its random draws made
explicit. -/
inductive Op where
  | createUser (now : Nat) (username email password vtok salt : String)
  | authUser (now : Nat) (username password : String)
  | authDb (username password : String)
  | verifyEmail (now : Nat) (token : String)
  | requestReset (now : Nat) (email rtok : String)
  | doReset (now : Nat) (token npw salt : String)
  deriving Repr, DecidableEq

/-- The store produced by one operation. -/
def applyOp (db : DB) : Op → DB
  | .createUser now un em p v s => (create_user db now un em p v s).db
  | .authUser now un p => (authenticate_user db now un p).db
  | .authDb un p => (authenticate_with_database db un p).db
  | .verifyEmail now t => (verify_email db now t).db
  | .requestReset now em r => (create_password_reset_token db now em r).db
  | .doReset now t npw s => (reset_password db now t npw s).db

/-- The store produced by a sequence of operations. -/
def runOps (db : DB) : List Op → DB
  | [] => db
  | op :: ops => runOps (applyOp db op) ops

/-- The invariant: a user still holding a verification token is unverified. -/
def TokenImpliesUnverified (db : DB) : Prop :=
  ∀ u ∈ db.users, u.verification_token ≠ none → u.is_verified = false

/-- Committing a mutated row preserves the invariant when the mutated row
itself satisfies it. -/
theorem tokenInv_saveUser (db : DB) (u' : DUser)
    (h : TokenImpliesUnverified db)
    (hu' : u'.verification_token ≠ none → u'.is_verified = false) :
    ∀ v ∈ saveUser db.users u',
      v.verification_token ≠ none → v.is_verified = false := by
  intro v hv
  simp only [saveUser, List.mem_map] at hv
  obtain ⟨x, hx, rfl⟩ := hv
  by_cases hid : x.id = u'.id
  · rw [if_pos hid]; exact hu'
  · rw [if_neg hid]; exact h x hx

/-- Every operation preserves the invariant. -/
theorem tokenInv_applyOp (db : DB) (op : Op)
    (h : TokenImpliesUnverified db) : TokenImpliesUnverified (applyOp db op) := by
  cases op with
  | createUser now un em p v s =>
    by_cases h1 : (db.users.find? (fun u => u.username == un)).isSome
    · simpa [applyOp, create_user, h1] using h
    · by_cases h2 : (db.users.find? (fun u => u.email == em)).isSome
      · simpa [applyOp, create_user, h1, h2] using h
      · intro u hu
        simp only [applyOp, create_user, h1, h2, Bool.false_eq_true,
          if_false, List.mem_append, List.mem_singleton] at hu
        rcases hu with hu | rfl
        · exact h u hu
        · intro _; rfl
  | authUser now un p =>
    cases hf : findByIdent db un with
    | none => simpa [applyOp, authenticate_user, hf] using h
    | some user =>
      by_cases hp : bcrypt_checkpw p user.password_hash
      · intro u hu
        simp only [applyOp, authenticate_user, hf, hp] at hu
        refine tokenInv_saveUser db (update_last_login user now) h ?_ u (by simpa using hu)
        have hmem : user ∈ db.users := List.mem_of_find?_eq_some hf
        exact h user hmem
      · simpa [applyOp, authenticate_user, hf, hp] using h
  | authDb un p =>
    cases hf : findByIdent db un with
    | none => simpa [applyOp, authenticate_with_database, hf] using h
    | some user =>
      by_cases hp : bcrypt_checkpw p user.password_hash
      · by_cases hv : user.is_verified
        · by_cases ha : user.is_active
          · intro u hu
            have hp' : (!bcrypt_checkpw p user.password_hash) = false := by
              simp [hp]
            have hv' : (!user.is_verified) = false := by simp [hv]
            have ha' : (!user.is_active) = false := by simp [ha]
            simp only [applyOp, authenticate_with_database, hf, hp', hv', ha',
              Bool.false_eq_true, if_false] at hu
            refine tokenInv_saveUser db
              { user with last_login := some (user.last_login.getD user.created_at) }
              h ?_ u (by simpa using hu)
            have hmem : user ∈ db.users := List.mem_of_find?_eq_some hf
            exact h user hmem
          · simpa [applyOp, authenticate_with_database, hf, hp, hv, ha] using h
        · simpa [applyOp, authenticate_with_database, hf, hp, hv] using h
      · simpa [applyOp, authenticate_with_database, hf, hp] using h
  | verifyEmail now t =>
    cases hf : db.users.find? (fun u => u.verification_token == some t) with
    | none => simpa [applyOp, verify_email, hf] using h
    | some user =>
      by_cases he : is_verification_token_expired user now
      · simpa [applyOp, verify_email, hf, he] using h
      · by_cases hv : user.is_verified
        · simpa [applyOp, verify_email, hf, he, hv] using h
        · intro u hu
          simp only [applyOp, verify_email, hf, he, hv] at hu
          refine tokenInv_saveUser db (mark_verified user) h ?_ u (by simpa using hu)
          intro hcontra
          simp [mark_verified] at hcontra
  | requestReset now em r =>
    cases hf : get_user_by_email db em with
    | none => simpa [applyOp, create_password_reset_token, hf] using h
    | some user =>
      by_cases hv : user.is_verified
      · simpa [applyOp, create_password_reset_token, hf, hv] using h
      · simpa [applyOp, create_password_reset_token, hf, hv] using h
  | doReset now t npw s =>
    cases hf : db.reset_tokens.find? (fun r => r.token == t) with
    | none => simpa [applyOp, reset_password, hf] using h
    | some r' =>
      by_cases he : r'.is_expired now
      · simpa [applyOp, reset_password, hf, he] using h
      · cases hu : db.users.find? (fun u => u.id == r'.user_id) with
        | none => simpa [applyOp, reset_password, hf, he, hu] using h
        | some user =>
          intro u hmem
          simp only [applyOp, reset_password, hf, he, hu] at hmem
          refine tokenInv_saveUser db
            { user with password_hash := bcrypt_hashpw npw s } h ?_ u
            (by simpa using hmem)
          have huser : user ∈ db.users := List.mem_of_find?_eq_some hu
          exact h user huser

/-- The invariant holds in every store reachable from one satisfying it, in
particular from the empty store. -/
theorem tokenInv_runOps (db : DB) (ops : List Op)
    (h : TokenImpliesUnverified db) : TokenImpliesUnverified (runOps db ops) := by
  induction ops generalizing db with
  | nil => exact h
  | cons op ops ih => exact ih (applyOp db op) (tokenInv_applyOp db op h)

/-- From the empty store, every reachable user holding a verification token
is unverified: the `is_verified = false` hypothesis of the C4/C10 theorems
is implied for the holder of any live token. -/
theorem tokenInv_reachable (ops : List Op) :
    TokenImpliesUnverified (runOps ⟨[], [], 1⟩ ops) :=
  tokenInv_runOps ⟨[], [], 1⟩ ops (fun u hu => absurd hu (List.not_mem_nil u))

/-! ### C1 — authentication gating -/

/-- **C1** counterexample: the claim asserts both entry points reject
unverified users with `EmailNotVerified`; but the service-layer
`authenticate_user` authenticates an unverified user with the correct
password successfully. -/
theorem C1_counterexample :
    aliceU.is_verified = false ∧
    bcrypt_checkpw "pw" aliceU.password_hash = true ∧
    (authenticate_user dbU 100 "alice" "pw").success = true ∧
    (authenticate_user dbU 100 "alice" "pw").message =
      "Authentication successful" := by
  decide

/-- **C1** (amended): the verified/active gating holds only for the
page-level `authenticate_with_database` (given a correct password, an
unverified user fails with the email-not-verified error, and a verified but
deactivated user fails with the account-deactivated error); the service-layer
`authenticate_user` performs no such checks and succeeds whenever the
password matches. -/
theorem C1_auth_gating_amended (db : DB) (now : Nat)
    (ident password : String) (u : DUser)
    (hfind : findByIdent db ident = some u)
    (hpw : bcrypt_checkpw password u.password_hash = true) :
    (u.is_verified = false →
      authenticate_with_database db ident password =
        ⟨false, none, .emailNotVerifiedInfo u, db⟩) ∧
    (u.is_verified = true → u.is_active = false →
      authenticate_with_database db ident password =
        ⟨false, none, .accountDeactivatedInfo u, db⟩) ∧
    (authenticate_user db now ident password).success = true := by
  refine ⟨fun hv => ?_, fun hv ha => ?_, ?_⟩
  · simp [authenticate_with_database, hfind, hpw, hv]
  · simp [authenticate_with_database, hfind, hpw, hv, ha]
  · simp [authenticate_user, hfind, hpw]

/-- Witness for the amended C1 theorem at a concrete store. -/
theorem C1_auth_gating_amended_witness :
    findByIdent dbU "alice" = some aliceU ∧
    bcrypt_checkpw "pw" aliceU.password_hash = true ∧
    ((aliceU.is_verified = false →
      authenticate_with_database dbU "alice" "pw" =
        ⟨false, none, .emailNotVerifiedInfo aliceU, dbU⟩) ∧
    (aliceU.is_verified = true → aliceU.is_active = false →
      authenticate_with_database dbU "alice" "pw" =
        ⟨false, none, .accountDeactivatedInfo aliceU, dbU⟩) ∧
    (authenticate_user dbU 100 "alice" "pw").success = true) :=
  ⟨by decide, by decide,
    C1_auth_gating_amended dbU 100 "alice" "pw" aliceU (by decide) (by decide)⟩

/-! ### C2 — reset-token supersession -/

/-- **C2** counterexample: two consecutive reset requests for the same email
return two distinct tokens, but the first token is still accepted by
`reset_password` afterwards (no supersession/invalidation happens). -/
theorem C2_counterexample :
    (create_password_reset_token dbV 100 "alice@x.com" "T1").token =
      some "T1" ∧
    (create_password_reset_token
        (create_password_reset_token dbV 100 "alice@x.com" "T1").db
        100 "alice@x.com" "T2").token = some "T2" ∧
    ("T1" : String) ≠ "T2" ∧
    (reset_password
        (create_password_reset_token
          (create_password_reset_token dbV 100 "alice@x.com" "T1").db
          100 "alice@x.com" "T2").db
        100 "T1" "NewPass1!" "s9").success = true ∧
    (reset_password
        (create_password_reset_token
          (create_password_reset_token dbV 100 "alice@x.com" "T1").db
          100 "alice@x.com" "T2").db
        100 "T1" "NewPass1!" "s9").message = "Password reset successfully" := by
  decide

/-- **C2** (amended): issuing a new reset token does not replace the prior
one.  After two consecutive `create_password_reset_token` calls for the same
verified user (with distinct fresh token draws `t1`, `t2`), each call returns
its own token, the store holds a live row for each, and `reset_password`
still accepts the first token `t1`. -/
theorem C2_no_supersession (db : DB) (now : Nat) (email : String)
    (u w : DUser) (t1 t2 npw salt : String)
    (hfind : get_user_by_email db email = some u)
    (hver : u.is_verified = true)
    (hfresh : ∀ r ∈ db.reset_tokens, r.token ≠ t1)
    (hid : db.users.find? (fun v => v.id == u.id) = some w) :
    (create_password_reset_token db now email t1).token = some t1 ∧
    (create_password_reset_token
        (create_password_reset_token db now email t1).db now email t2).token =
      some t2 ∧
    (⟨u.id, t1, now + oneHour⟩ : ResetTokenRec) ∈
      (create_password_reset_token
        (create_password_reset_token db now email t1).db now email
        t2).db.reset_tokens ∧
    (⟨u.id, t2, now + oneHour⟩ : ResetTokenRec) ∈
      (create_password_reset_token
        (create_password_reset_token db now email t1).db now email
        t2).db.reset_tokens ∧
    (reset_password
        (create_password_reset_token
          (create_password_reset_token db now email t1).db now email t2).db
        now t1 npw salt).success = true := by
  have h1 : create_password_reset_token db now email t1 =
      ⟨true, "Password reset token created", some t1,
        { db with reset_tokens :=
            db.reset_tokens ++ [⟨u.id, t1, now + oneHour⟩] }⟩ := by
    simp [create_password_reset_token, hfind, hver]
  have hfind2 : get_user_by_email
      { db with reset_tokens := db.reset_tokens ++ [⟨u.id, t1, now + oneHour⟩] }
      email = some u := hfind
  have h2 : create_password_reset_token
      { db with reset_tokens := db.reset_tokens ++ [⟨u.id, t1, now + oneHour⟩] }
      now email t2 =
      ⟨true, "Password reset token created", some t2,
        { db with reset_tokens :=
            (db.reset_tokens ++ [⟨u.id, t1, now + oneHour⟩]) ++
              [⟨u.id, t2, now + oneHour⟩] }⟩ := by
    simp [create_password_reset_token, hfind2, hver]
  have hnone : db.reset_tokens.find? (fun r => r.token == t1) = none := by
    rw [List.find?_eq_none]
    intro r hr
    simp only [beq_iff_eq]
    exact hfresh r hr
  have hex : (⟨u.id, t1, now + oneHour⟩ : ResetTokenRec).is_expired now =
      false := by
    simp [ResetTokenRec.is_expired]
  refine ⟨by rw [h1], by rw [h1, h2], ?_, ?_, ?_⟩
  · rw [h1, h2]; simp
  · rw [h1, h2]; simp
  · rw [h1, h2]
    simp [reset_password, List.find?_append, hnone, hex, hid]

/-- Witness for the amended C2 theorem at a concrete store. -/
theorem C2_no_supersession_witness :
    get_user_by_email dbV "alice@x.com" = some aliceV ∧
    aliceV.is_verified = true ∧
    (∀ r ∈ dbV.reset_tokens, r.token ≠ "T1") ∧
    dbV.users.find? (fun v => v.id == aliceV.id) = some aliceV ∧
    ((create_password_reset_token dbV 100 "alice@x.com" "T1").token =
      some "T1" ∧
    (create_password_reset_token
        (create_password_reset_token dbV 100 "alice@x.com" "T1").db 100
        "alice@x.com" "T2").token = some "T2" ∧
    (⟨aliceV.id, "T1", 100 + oneHour⟩ : ResetTokenRec) ∈
      (create_password_reset_token
        (create_password_reset_token dbV 100 "alice@x.com" "T1").db 100
        "alice@x.com" "T2").db.reset_tokens ∧
    (⟨aliceV.id, "T2", 100 + oneHour⟩ : ResetTokenRec) ∈
      (create_password_reset_token
        (create_password_reset_token dbV 100 "alice@x.com" "T1").db 100
        "alice@x.com" "T2").db.reset_tokens ∧
    (reset_password
        (create_password_reset_token
          (create_password_reset_token dbV 100 "alice@x.com" "T1").db 100
          "alice@x.com" "T2").db 100 "T1" "NewPass1!" "s9").success = true) :=
  ⟨by decide, by decide, by decide, by decide,
    C2_no_supersession dbV 100 "alice@x.com" aliceV aliceV "T1" "T2"
      "NewPass1!" "s9" (by decide) (by decide) (by decide) (by decide)⟩

/-! ### C3 — reset request error cases -/

/-- **C3** counterexample: the claim asserts `create_password_reset_token`
succeeds for every stored user with the given email regardless of
verification status; but for a stored unverified user it fails with the
verify-your-email-first message. -/
theorem C3_counterexample :
    get_user_by_email dbBob "bob@x.com" = some bobU ∧
    bobU.is_verified = false ∧
    (create_password_reset_token dbBob 100 "bob@x.com" "T3").success =
      false ∧
    (create_password_reset_token dbBob 100 "bob@x.com" "T3").message =
      "Please verify your email first" := by
  decide

/-- **C3** (amended): `create_password_reset_token` fails with the
no-account message when no user has the email, fails with the
verify-your-email-first message when the user exists but is unverified, and
for a verified user succeeds, inserting a token row with a 1-hour expiry and
returning the raw token. -/
theorem C3_reset_request_amended (db : DB) (now : Nat) (email rtok : String) :
    (get_user_by_email db email = none →
      create_password_reset_token db now email rtok =
        ⟨false, "No account found with this email", none, db⟩) ∧
    (∀ u, get_user_by_email db email = some u → u.is_verified = false →
      create_password_reset_token db now email rtok =
        ⟨false, "Please verify your email first", none, db⟩) ∧
    (∀ u, get_user_by_email db email = some u → u.is_verified = true →
      create_password_reset_token db now email rtok =
        ⟨true, "Password reset token created", some rtok,
          { db with reset_tokens :=
              db.reset_tokens ++ [⟨u.id, rtok, now + oneHour⟩] }⟩) := by
  refine ⟨fun h => ?_, fun u h hv => ?_, fun u h hv => ?_⟩
  · simp [create_password_reset_token, h]
  · simp [create_password_reset_token, h, hv]
  · simp [create_password_reset_token, h, hv]

/-- Witness for the amended C3 theorem at a concrete store (unverified-user
branch). -/
theorem C3_reset_request_amended_witness :
    get_user_by_email dbBob "bob@x.com" = some bobU ∧
    bobU.is_verified = false ∧
    create_password_reset_token dbBob 100 "bob@x.com" "T3" =
      ⟨false, "Please verify your email first", none, dbBob⟩ :=
  ⟨by decide, by decide,
    (C3_reset_request_amended dbBob 100 "bob@x.com" "T3").2.1 bobU
      (by decide) (by decide)⟩

/-! ### C4 — verification token is single-use -/

/-- **C4**: for a user found by a matching, unexpired verification token who
is not yet verified, the first `verify_email` call succeeds, sets
`is_verified` and clears the token and its expiry in the committed row; an
immediately following second call with the same token fails with the
invalid-token message.  (In this code a verified user never holds a token —
`mark_verified` clears it — so token validity entails the unverified
hypothesis; token uniqueness across rows is the `huniq` hypothesis,
reflecting the unique index on `verification_token`.) -/
theorem C4_verify_single_use (db : DB) (now : Nat) (t : String) (u : DUser)
    (hfind : db.users.find? (fun v => v.verification_token == some t) = some u)
    (hexp : is_verification_token_expired u now = false)
    (hver : u.is_verified = false)
    (huniq : ∀ v ∈ db.users, v.verification_token = some t → v.id = u.id) :
    (verify_email db now t).success = true ∧
    (verify_email db now t).message = "Email verified successfully" ∧
    (∀ v ∈ (verify_email db now t).db.users, v.id = u.id →
      v.is_verified = true ∧ v.verification_token = none ∧
      v.verification_expires = none) ∧
    verify_email (verify_email db now t).db now t =
      ⟨false, "Invalid verification token", (verify_email db now t).db⟩ := by
  have h1 : verify_email db now t =
      ⟨true, "Email verified successfully",
        { db with users := saveUser db.users (mark_verified u) }⟩ := by
    simp [verify_email, hfind, hexp, hver]
  rw [h1]
  refine ⟨rfl, rfl, ?_, ?_⟩
  · intro v hv hvid
    simp only [saveUser, List.mem_map] at hv
    obtain ⟨x, hx, rfl⟩ := hv
    by_cases hxid : x.id = (mark_verified u).id
    · simp [hxid, mark_verified]
    · exfalso
      apply hxid
      rw [if_neg hxid] at hvid
      simpa [mark_verified] using hvid
  · have h2 := find?_token_after_clear db t u huniq
    simp [verify_email, h2]

/-- Witness for the C4 theorem at a concrete store. -/
theorem C4_verify_single_use_witness :
    dbU.users.find? (fun v => v.verification_token == some "VT1") =
      some aliceU ∧
    is_verification_token_expired aliceU 100 = false ∧
    aliceU.is_verified = false ∧
    (∀ v ∈ dbU.users, v.verification_token = some "VT1" → v.id = aliceU.id) ∧
    ((verify_email dbU 100 "VT1").success = true ∧
    (verify_email dbU 100 "VT1").message = "Email verified successfully" ∧
    (∀ v ∈ (verify_email dbU 100 "VT1").db.users, v.id = aliceU.id →
      v.is_verified = true ∧ v.verification_token = none ∧
      v.verification_expires = none) ∧
    verify_email (verify_email dbU 100 "VT1").db 100 "VT1" =
      ⟨false, "Invalid verification token", (verify_email dbU 100 "VT1").db⟩) :=
  ⟨by decide, by decide, by decide, by decide,
    C4_verify_single_use dbU 100 "VT1" aliceU (by decide) (by decide)
      (by decide) (by decide)⟩

/-! ### C5 — order of the already-verified and expiry checks -/

/-- **C5** counterexample: for a token matching an already-verified user
whose expiry is in the past, `verify_email` returns the token-expired
message, not the already-verified one — the expiry check runs first. -/
theorem C5_counterexample :
    carol.is_verified = true ∧
    is_verification_token_expired carol 100 = true ∧
    verify_email dbCarol 100 "VT5" =
      ⟨false, "Verification token has expired", dbCarol⟩ := by
  decide

/-- **C5** (amended): `verify_email` performs the expiry check before the
already-verified check: an expired matching token is rejected with the
token-expired message regardless of the verified flag, and the
already-verified rejection is reachable only for unexpired tokens. -/
theorem C5_expiry_before_verified (db : DB) (now : Nat) (t : String)
    (u : DUser)
    (hfind : db.users.find? (fun v => v.verification_token == some t) =
      some u) :
    (is_verification_token_expired u now = true →
      verify_email db now t =
        ⟨false, "Verification token has expired", db⟩) ∧
    (is_verification_token_expired u now = false → u.is_verified = true →
      verify_email db now t = ⟨false, "Email already verified", db⟩) := by
  refine ⟨fun he => ?_, fun he hv => ?_⟩
  · simp [verify_email, hfind, he]
  · simp [verify_email, hfind, he, hv]

/-- Witness for the amended C5 theorem at a concrete store (expired branch,
user already verified). -/
theorem C5_expiry_before_verified_witness :
    dbCarol.users.find? (fun v => v.verification_token == some "VT5") =
      some carol ∧
    is_verification_token_expired carol 100 = true ∧
    verify_email dbCarol 100 "VT5" =
      ⟨false, "Verification token has expired", dbCarol⟩ :=
  ⟨by decide, by decide,
    (C5_expiry_before_verified dbCarol 100 "VT5" carol (by decide)).1
      (by decide)⟩

/-! ### C10 — post-success lookup by the consumed token -/

/-- **C10**: when `verify_email` succeeds, the same operation cleared the
stored token, so the page's follow-up lookup by that token finds nobody:
`verify_email_token` reports the placeholder username `"User"` and never
reaches the welcome-email branch. -/
theorem C10_consumed_token_lookup (db : DB) (now : Nat) (t : String)
    (u : DUser)
    (hfind : db.users.find? (fun v => v.verification_token == some t) =
      some u)
    (hexp : is_verification_token_expired u now = false)
    (hver : u.is_verified = false)
    (huniq : ∀ v ∈ db.users, v.verification_token = some t → v.id = u.id) :
    (verify_email_token db now t).success = true ∧
    (verify_email_token db now t).username = "User" ∧
    (verify_email_token db now t).welcome_email_sent = false ∧
    get_user_by_verification_token (verify_email db now t).db t = none := by
  have h1 : verify_email db now t =
      ⟨true, "Email verified successfully",
        { db with users := saveUser db.users (mark_verified u) }⟩ := by
    simp [verify_email, hfind, hexp, hver]
  have h2 : get_user_by_verification_token
      { db with users := saveUser db.users (mark_verified u) } t = none := by
    simpa [get_user_by_verification_token] using
      find?_token_after_clear db t u huniq
  refine ⟨?_, ?_, ?_, ?_⟩ <;> simp [verify_email_token, h1, h2]

/-- Witness for the C10 theorem at a concrete store. -/
theorem C10_consumed_token_lookup_witness :
    dbU.users.find? (fun v => v.verification_token == some "VT1") =
      some aliceU ∧
    is_verification_token_expired aliceU 100 = false ∧
    aliceU.is_verified = false ∧
    (∀ v ∈ dbU.users, v.verification_token = some "VT1" → v.id = aliceU.id) ∧
    ((verify_email_token dbU 100 "VT1").success = true ∧
    (verify_email_token dbU 100 "VT1").username = "User" ∧
    (verify_email_token dbU 100 "VT1").welcome_email_sent = false ∧
    get_user_by_verification_token (verify_email dbU 100 "VT1").db "VT1" =
      none) :=
  ⟨by decide, by decide, by decide, by decide,
    C10_consumed_token_lookup dbU 100 "VT1" aliceU (by decide) (by decide)
      (by decide) (by decide)⟩

/-! ### C6 — password-reset round trip -/

/-- **C6**: for a verified user holding a live (unexpired) reset token whose
identifier resolves to that user and whose current password is `pOld`, a
successful `reset_password` with a different new password `pNew` makes
authentication with `pOld` fail with the invalid-credentials message while
authentication with `pNew` succeeds — the stored hash now verifies exactly
the new password.  (`hids` reflects primary-key uniqueness of user ids.) -/
theorem C6_reset_roundtrip (db : DB) (now now₂ : Nat)
    (ident t pOld pNew salt : String) (u : DUser) (r : ResetTokenRec)
    (hrt : db.reset_tokens.find? (fun x => x.token == t) = some r)
    (hexp : r.is_expired now = false)
    (hid : db.users.find? (fun v => v.id == r.user_id) = some u)
    (hident : findByIdent db ident = some u)
    (hver : u.is_verified = true)
    (hpwOld : bcrypt_checkpw pOld u.password_hash = true)
    (hids : ∀ v ∈ db.users, ∀ w ∈ db.users, v.id = w.id → v = w)
    (hne : pOld ≠ pNew) :
    (reset_password db now t pNew salt).success = true ∧
    authenticate_user (reset_password db now t pNew salt).db now₂ ident
        pOld =
      ⟨false, "Invalid username or password", none,
        (reset_password db now t pNew salt).db⟩ ∧
    (authenticate_user (reset_password db now t pNew salt).db now₂ ident
        pNew).success = true := by
  have h1 : reset_password db now t pNew salt =
      ⟨true, "Password reset successfully",
        { db with
            users := saveUser db.users
              { u with password_hash := bcrypt_hashpw pNew salt },
            reset_tokens :=
              db.reset_tokens.eraseP (fun r₂ => r₂.token == t) }⟩ := by
    simp [reset_password, hrt, hexp, hid]
  have hu_mem : u ∈ db.users := List.mem_of_find?_eq_some hid
  have hfl : (saveUser db.users
        { u with password_hash := bcrypt_hashpw pNew salt }).find?
        (fun v => v.username == ident || v.email == ident) =
      some { u with password_hash := bcrypt_hashpw pNew salt } := by
    rw [saveUser, find?_map_of_pred_inv]
    · have : db.users.find? (fun v => v.username == ident || v.email == ident)
          = some u := hident
      rw [this]
      simp
    · intro x hx
      by_cases hxid :
          x.id = ({ u with password_hash := bcrypt_hashpw pNew salt } : DUser).id
      · have hxu : x = u := hids x hx u hu_mem hxid
        subst hxu
        rw [if_pos hxid]
      · rw [if_neg hxid]
  have hc1 : bcrypt_checkpw pOld (bcrypt_hashpw pNew salt) = false := by
    rw [checkpw_hashpw]
    exact beq_eq_false_iff_ne.mpr (Ne.symm hne)
  have hc2 : bcrypt_checkpw pNew (bcrypt_hashpw pNew salt) = true := by
    rw [checkpw_hashpw]
    exact beq_self_eq_true pNew
  rw [h1]
  refine ⟨rfl, ?_, ?_⟩
  · simp [authenticate_user, findByIdent, hfl, hc1]
  · simp [authenticate_user, findByIdent, hfl, hc2]

/-- Witness for the C6 theorem at a concrete store. -/
theorem C6_reset_roundtrip_witness :
    dbVreset.reset_tokens.find? (fun x => x.token == "T1") =
      some ⟨1, "T1", 200⟩ ∧
    (⟨1, "T1", 200⟩ : ResetTokenRec).is_expired 100 = false ∧
    dbVreset.users.find? (fun v => v.id == (1 : Nat)) = some aliceV ∧
    findByIdent dbVreset "alice" = some aliceV ∧
    aliceV.is_verified = true ∧
    bcrypt_checkpw "Str0ng!Pass" aliceV.password_hash = true ∧
    (∀ v ∈ dbVreset.users, ∀ w ∈ dbVreset.users, v.id = w.id → v = w) ∧
    ("Str0ng!Pass" : String) ≠ "NewPass1!" ∧
    ((reset_password dbVreset 100 "T1" "NewPass1!" "s2").success = true ∧
    authenticate_user (reset_password dbVreset 100 "T1" "NewPass1!" "s2").db
        101 "alice" "Str0ng!Pass" =
      ⟨false, "Invalid username or password", none,
        (reset_password dbVreset 100 "T1" "NewPass1!" "s2").db⟩ ∧
    (authenticate_user (reset_password dbVreset 100 "T1" "NewPass1!" "s2").db
        101 "alice" "NewPass1!").success = true) :=
  ⟨by decide, by decide, by decide, by decide, by decide, by decide,
    by decide, by decide,
    C6_reset_roundtrip dbVreset 100 101 "alice" "T1" "Str0ng!Pass"
      "NewPass1!" "s2" aliceV ⟨1, "T1", 200⟩ (by decide) (by decide)
      (by decide) (by decide) (by decide) (by decide) (by decide)
      (by decide)⟩

/-! ### C7 — no plaintext storage or comparison -/

/-- An empty store, used to create a fresh user. -/
def dbEmpty : DB := ⟨[], [], 1⟩

/-- The user record `create_user dbEmpty 50 "carl" "carl@x.com" "pw" "VTC"
"s7"` creates. -/
def carlU : DUser :=
  ⟨1, "carl", "carl@x.com", bcrypt_hashpw "pw" "s7", false, some "VTC",
    some (50 + oneDay), 50, none, true⟩

/-- **C7** counterexample: the claim asserts every credential comparison,
including the config-file fallback, goes through the salted hashing utility
and that the stored credential never equals the plaintext; but
`authenticate_with_config` succeeds by plain string equality against a
stored password value that is exactly the plaintext. -/
theorem C7_counterexample :
    (cfgAdmin.usernames.find? (fun q => q.fst == "admin")).map
        (fun q => q.snd.password) = some "secret" ∧
    authenticate_with_config "admin" "secret" cfgAdmin =
      (true, some "Admin") := by
  decide

/-- **C7** (amended): the database path stores only a bcrypt hash — for the
user created by `create_user`, the stored (rendered) hash is never equal to
the password, verifies the password, and rejects `password ++ "x"`; the
config-file fallback, by contrast, compares the stored password value with
the supplied one by plain string equality. -/
theorem C7_hashing_amended (db : DB) (now : Nat)
    (un em p vtok salt : String) :
    (∀ u, (create_user db now un em p vtok salt).user = some u →
      u.password_hash = bcrypt_hashpw p salt ∧
      u.password_hash.render ≠ p ∧
      bcrypt_checkpw p u.password_hash = true ∧
      bcrypt_checkpw (p ++ "x") u.password_hash = false) ∧
    (∀ (cfg : Config) (ident pw : String) (entry : String × ConfigUser),
      cfg.usernames.find? (fun q => q.fst == ident) = some entry →
      ((authenticate_with_config ident pw cfg).fst = true ↔
        entry.snd.password = pw)) := by
  constructor
  · intro u hu
    have hph : u.password_hash = bcrypt_hashpw p salt := by
      by_cases h1 : (db.users.find? (fun v => v.username == un)).isSome
      · simp [create_user, h1] at hu
      · by_cases h2 : (db.users.find? (fun v => v.email == em)).isSome
        · simp [create_user, h1, h2] at hu
        · simp [create_user, h1, h2] at hu
          rw [← hu]
    rw [hph]
    refine ⟨rfl, render_hashpw_ne p salt, ?_, ?_⟩
    · rw [checkpw_hashpw]
      exact beq_self_eq_true p
    · rw [checkpw_hashpw]
      exact beq_eq_false_iff_ne.mpr (Ne.symm (append_x_ne p))
  · intro cfg ident pw entry hentry
    by_cases h : entry.snd.password = pw
    · simp [authenticate_with_config, hentry, h]
    · simp [authenticate_with_config, hentry, h]

/-- Witness for the amended C7 theorem at concrete inputs. -/
theorem C7_hashing_amended_witness :
    (create_user dbEmpty 50 "carl" "carl@x.com" "pw" "VTC" "s7").user =
      some carlU ∧
    (carlU.password_hash = bcrypt_hashpw "pw" "s7" ∧
      carlU.password_hash.render ≠ "pw" ∧
      bcrypt_checkpw "pw" carlU.password_hash = true ∧
      bcrypt_checkpw ("pw" ++ "x") carlU.password_hash = false) ∧
    cfgAdmin.usernames.find? (fun q => q.fst == "admin") =
      some ("admin", ⟨"Admin", "secret"⟩) ∧
    ((authenticate_with_config "admin" "secret" cfgAdmin).fst = true ↔
      (("admin", (⟨"Admin", "secret"⟩ : ConfigUser)) :
        String × ConfigUser).snd.password = "secret") :=
  ⟨by decide,
    (C7_hashing_amended dbEmpty 50 "carl" "carl@x.com" "pw" "VTC" "s7").1
      carlU (by decide),
    by decide,
    (C7_hashing_amended dbEmpty 50 "carl" "carl@x.com" "pw" "VTC" "s7").2
      cfgAdmin "admin" "secret" ("admin", ⟨"Admin", "secret"⟩) (by decide)⟩

/-! ### C8 — gate order in authentication -/

/-- **C8** counterexample: the claim asserts the active-check precedes
password verification, so a deactivated user always gets the
account-deactivated result; but for a deactivated user with a wrong
password, `authenticate_with_database` returns the plain invalid-credentials
shape (`noInfo`), because the password check runs first. -/
theorem C8_counterexample :
    dave.is_active = false ∧
    bcrypt_checkpw "wrongpw" dave.password_hash = false ∧
    authenticate_with_database dbDave "dave" "wrongpw" =
      ⟨false, none, .noInfo, dbDave⟩ := by
  decide

/-- **C8** (amended): `authenticate_with_database` applies its gates in the
fixed order password-check, then verified-check, then active-check: a wrong
password yields the invalid-credentials shape regardless of the flags; with
a correct password an unverified user gets the email-not-verified error even
when deactivated; and the account-deactivated error is reached only with a
correct password and a verified account. -/
theorem C8_gate_order_amended (db : DB) (ident password : String) (u : DUser)
    (hfind : findByIdent db ident = some u) :
    (bcrypt_checkpw password u.password_hash = false →
      authenticate_with_database db ident password =
        ⟨false, none, .noInfo, db⟩) ∧
    (bcrypt_checkpw password u.password_hash = true → u.is_verified = false →
      authenticate_with_database db ident password =
        ⟨false, none, .emailNotVerifiedInfo u, db⟩) ∧
    (bcrypt_checkpw password u.password_hash = true → u.is_verified = true →
      u.is_active = false →
      authenticate_with_database db ident password =
        ⟨false, none, .accountDeactivatedInfo u, db⟩) := by
  refine ⟨fun hp => ?_, fun hp hv => ?_, fun hp hv ha => ?_⟩
  · simp [authenticate_with_database, hfind, hp]
  · simp [authenticate_with_database, hfind, hp, hv]
  · simp [authenticate_with_database, hfind, hp, hv, ha]

/-- Witness for the amended C8 theorem at a concrete store: a deactivated
verified user gets the invalid-credentials shape on a wrong password and
the account-deactivated error on the correct one. -/
theorem C8_gate_order_amended_witness :
    findByIdent dbDave "dave" = some dave ∧
    bcrypt_checkpw "wrongpw" dave.password_hash = false ∧
    bcrypt_checkpw "pw" dave.password_hash = true ∧
    dave.is_verified = true ∧
    dave.is_active = false ∧
    authenticate_with_database dbDave "dave" "wrongpw" =
      ⟨false, none, .noInfo, dbDave⟩ ∧
    authenticate_with_database dbDave "dave" "pw" =
      ⟨false, none, .accountDeactivatedInfo dave, dbDave⟩ :=
  ⟨by decide, by decide, by decide, by decide, by decide,
    (C8_gate_order_amended dbDave "dave" "wrongpw" dave (by decide)).1
      (by decide),
    (C8_gate_order_amended dbDave "dave" "pw" dave (by decide)).2.2
      (by decide) (by decide) (by decide)⟩

/-! ### C9 — last_login on successful authentication -/

/-- **C9** counterexample: the claim asserts both entry points set
`last_login` to the current time on success; but
`authenticate_with_database` reads no clock at all — for a user whose
`last_login` is already `some 3` it persists `some 3` unchanged (so at any
current time other than 3, e.g. 100, the claim fails). -/
theorem C9_counterexample :
    erin.last_login = some 3 ∧
    erin.created_at = 5 ∧
    (authenticate_with_database dbErin "erin" "pw").success = true ∧
    (authenticate_with_database dbErin "erin" "pw").extra =
      .userInfo erin ∧
    (authenticate_with_database dbErin "erin" "pw").db.users = [erin] ∧
    (some 3 : Option Nat) ≠ some 100 := by
  decide

/-- **C9** (amended): only the service-layer `authenticate_user` sets
`last_login = now()` and persists it; the page-level
`authenticate_with_database` instead persists the previous `last_login`
value, falling back to `created_at` when it was null — it never records the
current time. -/
theorem C9_last_login_amended (db : DB) (now : Nat)
    (ident password : String) (u : DUser)
    (hfind : findByIdent db ident = some u)
    (hpw : bcrypt_checkpw password u.password_hash = true) :
    (authenticate_user db now ident password).user =
      some (update_last_login u now) ∧
    (authenticate_user db now ident password).db.users =
      saveUser db.users (update_last_login u now) ∧
    (u.is_verified = true → u.is_active = true →
      (authenticate_with_database db ident password).extra =
        .userInfo
          { u with last_login := some (u.last_login.getD u.created_at) } ∧
      (authenticate_with_database db ident password).db.users =
        saveUser db.users
          { u with last_login := some (u.last_login.getD u.created_at) }) := by
  refine ⟨?_, ?_, fun hv ha => ⟨?_, ?_⟩⟩
  · simp [authenticate_user, hfind, hpw]
  · simp [authenticate_user, hfind, hpw]
  · simp [authenticate_with_database, hfind, hpw, hv, ha]
  · simp [authenticate_with_database, hfind, hpw, hv, ha]

/-- Witness for the amended C9 theorem at a concrete store. -/
theorem C9_last_login_amended_witness :
    findByIdent dbErin "erin" = some erin ∧
    bcrypt_checkpw "pw" erin.password_hash = true ∧
    ((authenticate_user dbErin 100 "erin" "pw").user =
      some (update_last_login erin 100) ∧
    (authenticate_user dbErin 100 "erin" "pw").db.users =
      saveUser dbErin.users (update_last_login erin 100) ∧
    (erin.is_verified = true → erin.is_active = true →
      (authenticate_with_database dbErin "erin" "pw").extra =
        .userInfo
          { erin with last_login := some (erin.last_login.getD erin.created_at) } ∧
      (authenticate_with_database dbErin "erin" "pw").db.users =
        saveUser dbErin.users
          { erin with last_login := some (erin.last_login.getD erin.created_at) })) :=
  ⟨by decide, by decide,
    C9_last_login_amended dbErin 100 "erin" "pw" erin (by decide)
      (by decide)⟩

end DataAssistant
